import Mathlib

/-!
Verification of the live assessment engine of the FGP repository
(`src/pipeline_b`): percentile interpolation, flow/drought/flood status
classification, regression-based trend detection, the reference-data cache,
and the per-batch assessment loop.  All numeric quantities are embedded as
rationals (the idealised semantics of the Python floats), optional /
possibly-NaN values as `Option`, and pandas rows as structures with named
optional fields.
-/

namespace FGP

/-! ## Configuration (`src/utils/config.py`) -/

/-- Structure `DroughtConfig`: drought classification thresholds
(defaults 30, 20, 10, 5, 2). -/
structure DroughtConfig where
  d0_threshold : ℚ
  d1_threshold : ℚ
  d2_threshold : ℚ
  d3_threshold : ℚ
  d4_threshold : ℚ

/-- The default `DroughtConfig()` instance. -/
def defaultDrought : DroughtConfig :=
  { d0_threshold := 30
    d1_threshold := 20
    d2_threshold := 10
    d3_threshold := 5
    d4_threshold := 2 }

/-- Structure `TrendConfig`: trend detection configuration. -/
structure TrendConfig where
  window_hours : ℕ
  min_data_points : ℕ
  rising_threshold : ℚ
  falling_threshold : ℚ
  temp_rising_threshold : ℚ
  temp_falling_threshold : ℚ

/-- The default `TrendConfig()` instance. -/
def defaultTrend : TrendConfig :=
  { window_hours := 48
    min_data_points := 4
    rising_threshold := 5
    falling_threshold := -5
    temp_rising_threshold := 1
    temp_falling_threshold := -1 }

/-- The tuple `config.usgs.percentiles = (5, 10, 25, 50, 75, 90, 95)`. -/
def usgsPercentiles : List ℚ := [5, 10, 25, 50, 75, 90, 95]

/-! ## Status classifiers (`src/pipeline_b/percentile_calc.py`) -/

/-- Function `get_flow_status(percentile)`: basic flow status label. -/
def get_flow_status (percentile : ℚ) : String :=
  if percentile < 5 then "Much Below Normal"
  else if percentile < 10 then "Below Normal"
  else if percentile < 25 then "Below Normal"
  else if percentile < 75 then "Normal"
  else if percentile < 90 then "Above Normal"
  else if percentile < 95 then "Above Normal"
  else "Much Above Normal"

/-- Function `get_drought_status(percentile)`: USDM drought tier, or `None` when not
in drought.  The configurable cutoffs are passed explicitly (the Python code
reads the global `config.drought`). -/
def get_drought_status (cfg : DroughtConfig) (percentile : ℚ) : Option String :=
  if percentile < cfg.d4_threshold then some "D4 - Exceptional Drought"
  else if percentile < cfg.d3_threshold then some "D3 - Extreme Drought"
  else if percentile < cfg.d2_threshold then some "D2 - Severe Drought"
  else if percentile < cfg.d1_threshold then some "D1 - Moderate Drought"
  else if percentile < cfg.d0_threshold then some "D0 - Abnormally Dry"
  else none

/-- A row of NWS flood thresholds for one site; every stage may be absent
(`None`/NaN in the source becomes `Option.none`). -/
structure FloodThresholdRow where
  action_stage : Option ℚ
  flood_stage : Option ℚ
  moderate_flood_stage : Option ℚ
  major_flood_stage : Option ℚ

/-- One comparison link of `get_flood_status`:
`x is not None and not isna(x) and gage_height >= x`. -/
def meetsThresh (g : ℚ) (o : Option ℚ) : Bool :=
  match o with
  | none => false
  | some v => decide (v ≤ g)

/-- Function `get_flood_status(gage_height, flood_thresholds)`: NWS flood tier,
checked from most severe to least severe; `None` gage height or missing
threshold row gives `None`. -/
def get_flood_status (gage_height : Option ℚ)
    (flood_thresholds : Option FloodThresholdRow) : Option String :=
  match gage_height with
  | none => none
  | some g =>
    match flood_thresholds with
    | none => none
    | some t =>
      if meetsThresh g t.major_flood_stage then some "Major Flood"
      else if meetsThresh g t.moderate_flood_stage then some "Moderate Flood"
      else if meetsThresh g t.flood_stage then some "Minor Flood"
      else if meetsThresh g t.action_stage then some "Action Stage"
      else none

/-! ## Percentile interpolation (`interpolate_percentile`) -/

/-- Behaviour of `np.interp(x, xp, fp)` on its in-range inputs (the caller has already
clamped `x` strictly between the first and last sample abscissa): walk to
the last sample point whose abscissa is at most `x`; return its ordinate
exactly when `x` sits on that knot, otherwise interpolate linearly towards
the following point. -/
def npInterp (x : ℚ) : List (ℚ × ℚ) → ℚ
  | [] => 0
  | [(_, f0)] => f0
  | (x0, f0) :: (x1, f1) :: rest =>
    if x1 ≤ x then npInterp x ((x1, f1) :: rest)
    else if x = x0 then f0
    else f0 + (f1 - f0) * (x - x0) / (x1 - x0)

/-- The percentile threshold columns `p05 … p95` of one reference row
(`f"p{p:02d}"` for `config.usgs.percentiles`); a missing column or NaN cell
is `none`. -/
structure RefRow where
  p05 : Option ℚ
  p10 : Option ℚ
  p25 : Option ℚ
  p50 : Option ℚ
  p75 : Option ℚ
  p90 : Option ℚ
  p95 : Option ℚ

/-- The `(percentile, cell)` pairs walked by `interpolate_percentile`, in
the fixed order of `config.usgs.percentiles`. -/
def rowPairs (r : RefRow) : List (ℚ × Option ℚ) :=
  [(5, r.p05), (10, r.p10), (25, r.p25), (50, r.p50),
   (75, r.p75), (90, r.p90), (95, r.p95)]

/-- Keep the present cells, in order (the source's loop accumulating
`thresholds` and `valid_percentiles` in parallel). -/
def collectValid : List (ℚ × Option ℚ) → List (ℚ × ℚ)
  | [] => []
  | (_, none) :: rest => collectValid rest
  | (p, some v) :: rest => (p, v) :: collectValid rest

/-- The `(percentile, threshold)` pairs of the present cells of a row. -/
def validPairs (r : RefRow) : List (ℚ × ℚ) :=
  collectValid (rowPairs r)

/-- Function `interpolate_percentile(current_flow, percentile_thresholds)`: `none`
with fewer than two present cells; clamp to the first percentile at or
below the first threshold, to the last percentile at or above the last
threshold; otherwise linear interpolation via `np.interp`. -/
def interpolate_percentile (current_flow : ℚ) (r : RefRow) : Option ℚ :=
  let valid := validPairs r
  if valid.length < 2 then none
  else
    let thresholds := valid.map Prod.snd
    let percentiles := valid.map Prod.fst
    if current_flow ≤ thresholds.headD 0 then some (percentiles.headD 0)
    else if thresholds.getLastD 0 ≤ current_flow then some (percentiles.getLastD 0)
    else some (npInterp current_flow (valid.map (fun pv => (pv.2, pv.1))))

/-! ## Trend detection (`src/pipeline_b/trend_detector.py`)

A reading series is a list of `(timestamp, flow)` pairs; a timestamp is the
number of seconds of the `datetime` (so that `total_seconds` of a
difference is plain subtraction). -/

/-- The `TrendResult` dataclass. -/
structure TrendResult where
  trend : String
  trend_rate : ℚ
  hours_since_peak : Option ℚ
  data_points : ℕ
  deriving DecidableEq

/-- Arithmetic mean, as in `np.std`'s centring step. -/
def mean (l : List ℚ) : ℚ := l.sum / l.length

/-- Population variance; the source's guard `np.std(flows) < 1e-10` is
embedded as `variance flows < (1e-10)^2`, an exact rephrasing since both
sides are squares of non-negative reals. -/
def variance (l : List ℚ) : ℚ :=
  ((l.map (fun x => (x - mean l) ^ 2)).sum) / l.length

/-- Semantics of `np.median`: middle of the sorted data, or the average of the two
middle entries for an even count. -/
def median (l : List ℚ) : ℚ :=
  let s := l.insertionSort (· ≤ ·)
  if l.length % 2 = 1 then s.getD (l.length / 2) 0
  else (s.getD (l.length / 2 - 1) 0 + s.getD (l.length / 2) 0) / 2

/-- The slope of `np.polyfit(xs, ys, 1)`: the closed-form ordinary
least-squares slope `(n·Σxy − Σx·Σy) / (n·Σx² − (Σx)²)`, which is the
unique least-squares line whenever the `xs` are not all equal. -/
def olsSlope (xs ys : List ℚ) : ℚ :=
  let n : ℚ := xs.length
  (n * ((xs.zip ys).map (fun p => p.1 * p.2)).sum - xs.sum * ys.sum) /
    (n * (xs.map (fun x => x ^ 2)).sum - xs.sum ^ 2)

/-- Semantics of `np.argmax`: index of the first occurrence of the maximum. -/
def argmax (l : List ℚ) : ℕ :=
  (List.range l.length).foldl
    (fun best i => if l.getD best 0 < l.getD i 0 then i else best) 0

/-- Python's banker's rounding to an integer (exact-rational semantics). -/
def roundHalfEven (q : ℚ) : ℤ :=
  if q - ⌊q⌋ = 1 / 2 then (if ⌊q⌋ % 2 = 0 then ⌊q⌋ else ⌊q⌋ + 1)
  else round q

/-- Python's `round(q, d)`. -/
def pyRound (d : ℕ) (q : ℚ) : ℚ := (roundHalfEven (q * 10 ^ d) : ℚ) / 10 ^ d

/-- The raw flow values of a series. -/
def flowsOf (h : List (ℚ × ℚ)) : List ℚ := h.map Prod.snd

/-- The timestamps of a series. -/
def timesOf (h : List (ℚ × ℚ)) : List ℚ := h.map Prod.fst

/-- The array `hours_from_start`: elapsed hours of each sample since the first. -/
def hoursOf (h : List (ℚ × ℚ)) : List ℚ :=
  (timesOf h).map (fun t => (t - (timesOf h).headD 0) / 3600)

/-- The quantity `total_hours`: the observation window. -/
def totalHoursOf (h : List (ℚ × ℚ)) : ℚ :=
  (hoursOf h).getLastD 0 - (hoursOf h).headD 0

/-- The array `normalized_flows = (flows - median) / median * 100`. -/
def normalizedOf (h : List (ℚ × ℚ)) : List ℚ :=
  (flowsOf h).map (fun f => (f - median (flowsOf h)) / median (flowsOf h) * 100)

/-- The fitted slope (`trend_rate` before rounding). -/
def slopeOf (h : List (ℚ × ℚ)) : ℚ := olsSlope (hoursOf h) (normalizedOf h)

/-- The quantity `total_change = trend_rate * total_hours`. -/
def totalChangeOf (h : List (ℚ × ℚ)) : ℚ := slopeOf h * totalHoursOf h

/-- The quantity `hours_since_peak`: last timestamp minus timestamp of the first maximum
raw value, in hours. -/
def peakDeltaHours (h : List (ℚ × ℚ)) : ℚ :=
  ((timesOf h).getLastD 0 - (timesOf h).getD (argmax (flowsOf h)) 0) / 3600

/-- Function `calculate_trend(flow_history, rising_threshold, falling_threshold,
min_data_points)`: linear regression on median-normalized flows with the
source's four degenerate-case guards, classification of `total_change`
against the thresholds, and peak timing only on the falling branch (with
Python's truthiness check on the value before rounding). -/
def calculate_trend (flow_history : List (ℚ × ℚ))
    (rising_threshold falling_threshold : ℚ)
    (min_data_points : ℕ) : TrendResult :=
  let data_points := flow_history.length
  if data_points < min_data_points then
    ⟨"unknown", 0, none, data_points⟩
  else if variance (flowsOf flow_history) < 1 / 10 ^ 20 then
    ⟨"stable", 0, none, data_points⟩
  else if totalHoursOf flow_history < 1 / 10 then
    ⟨"unknown", 0, none, data_points⟩
  else if median (flowsOf flow_history) < 1 / 10 ^ 10 then
    ⟨"unknown", 0, none, data_points⟩
  else
    let trend_rate := slopeOf flow_history
    let total_change := totalChangeOf flow_history
    let hours_since_peak := peakDeltaHours flow_history
    if rising_threshold ≤ total_change then
      ⟨"rising", pyRound 3 trend_rate, none, data_points⟩
    else if total_change ≤ falling_threshold then
      ⟨"falling", pyRound 3 trend_rate,
        (if 1 / 2 < hours_since_peak then
          (if hours_since_peak = 0 then none
           else some (pyRound 1 hours_since_peak))
         else none),
        data_points⟩
    else
      ⟨"stable", pyRound 3 trend_rate, none, data_points⟩

/-- Modelled from the spec: `calculate_temp_trend` is imported from
`trend_detector` and called by `run_live_monitor` in `percentile_calc.py`,
but its definition is absent from the source tree.  Per spec §4.3 step 4 it
follows `calculate_trend` with the median-normalization step — and hence
the zero-median guard — skipped: the regression runs on raw degree values
and the thresholds are absolute degrees. -/
def calculate_temp_trend (temp_history : List (ℚ × ℚ))
    (rising_threshold falling_threshold : ℚ)
    (min_data_points : ℕ) : TrendResult :=
  let data_points := temp_history.length
  if data_points < min_data_points then
    ⟨"unknown", 0, none, data_points⟩
  else if variance (flowsOf temp_history) < 1 / 10 ^ 20 then
    ⟨"stable", 0, none, data_points⟩
  else if totalHoursOf temp_history < 1 / 10 then
    ⟨"unknown", 0, none, data_points⟩
  else
    let trend_rate := olsSlope (hoursOf temp_history) (flowsOf temp_history)
    let total_change := trend_rate * totalHoursOf temp_history
    let hours_since_peak := peakDeltaHours temp_history
    if rising_threshold ≤ total_change then
      ⟨"rising", pyRound 3 trend_rate, none, data_points⟩
    else if total_change ≤ falling_threshold then
      ⟨"falling", pyRound 3 trend_rate,
        (if 1 / 2 < hours_since_peak then
          (if hours_since_peak = 0 then none
           else some (pyRound 1 hours_since_peak))
         else none),
        data_points⟩
    else
      ⟨"stable", pyRound 3 trend_rate, none, data_points⟩

/-! ## Reference cache (`src/pipeline_b/reference_loader.py`) -/

/-- One row of a reference-statistics table. -/
structure RefEntry where
  site_id : String
  month_day : String
  row : RefRow

/-- A reference-statistics table (`DataFrame`) for one state. -/
abbrev RefTable := List RefEntry

/-- The module-level `_reference_cache` dict; a lookup takes the most
recently inserted binding of a key, matching dict overwrite semantics. -/
abbrev RefCache := List (String × RefTable)

/-- Dict membership/read of the cache. -/
def cacheLookup (c : RefCache) (k : String) : Option RefTable :=
  (c.find? (fun e => e.1 == k)).map Prod.snd

/-- The external world behind `load_reference_data`: `localDir = none`
models no `set_local_reference_dir` call; an inner `none` models a missing
`{state}_stats.parquet`; `s3 k = none` models a failed/absent download. -/
structure RefStore where
  localDir : Option (String → Option RefTable)
  s3 : String → Option RefTable

/-- The load fallback chain of `load_reference_data`: local file first when
a local directory is set, S3 otherwise. -/
def storeFetch (store : RefStore) (sc : String) : Option RefTable :=
  let dfLocal : Option RefTable :=
    match store.localDir with
    | none => none
    | some d => d sc
  match dfLocal with
  | some t => some t
  | none => store.s3 sc

/-- Function `load_reference_data(state_code, use_cache)` as a state transformer:
returns the result, the updated cache, and whether the external store was
consulted. -/
def load_reference_data (store : RefStore) (cache : RefCache)
    (state_code : String) (use_cache : Bool) :
    Option RefTable × RefCache × Bool :=
  if use_cache ∧ (cacheLookup cache state_code).isSome then
    (cacheLookup cache state_code, cache, false)
  else
    match storeFetch store state_code with
    | some t =>
      (some t, if use_cache then (state_code, t) :: cache else cache, true)
    | none => (none, cache, true)

/-- Function `clear_cache()`. -/
def clear_cache (_cache : RefCache) : RefCache := []

/-! ## Assessment engine (`calculate_live_percentiles`) -/

/-- One row of `current_df` (the latest value per station). -/
structure CurrentRow where
  site_no : Option String
  discharge : Option ℚ
  gage_height : Option ℚ
  water_temp : Option ℚ

/-- One row of `flood_thresholds_df`. -/
structure FloodEntry where
  site_id : String
  row : FloodThresholdRow

/-- The output record assembled per station. -/
structure StatusRecord where
  site_id : String
  flow : Option ℚ
  gage_height : Option ℚ
  water_temp : Option ℚ
  percentile : Option ℚ
  flow_status : Option String
  drought_status : Option String
  flood_status : Option String
  trend : Option String
  trend_rate : Option ℚ
  hours_since_peak : Option ℚ
  water_temp_trend : Option String
  timestamp : String

/-- The `flood_lookup` dict built from the optional thresholds frame:
rows with an empty `site_id` are skipped, later rows overwrite earlier
ones. -/
def buildFloodLookup (df : Option (List FloodEntry)) (sid : String) :
    Option FloodThresholdRow :=
  match df with
  | none => none
  | some l =>
    ((l.filter (fun e => !(e.site_id == "") && e.site_id == sid)).getLast?).map
      FloodEntry.row

/-- Lookup `reference_df[(site_id ==) & (month_day ==)].iloc[0]`: the first
matching reference row, if any. -/
def refLookup (ref : List RefEntry) (sid md : String) : Option RefRow :=
  (ref.find? (fun e => e.site_id == sid && e.month_day == md)).map RefEntry.row

/-- The percentile the engine computes for a row keyed `sid` (before the
one-decimal presentation rounding): needs a flow value, a reference match
and a successful interpolation. -/
def rowPercentileRaw (ref : List RefEntry) (md sid : String)
    (row : CurrentRow) : Option ℚ :=
  match row.discharge with
  | none => none
  | some flow =>
    match refLookup ref sid md with
    | none => none
    | some rr => interpolate_percentile flow rr

/-- The flood status the engine computes for a row keyed `sid`: needs a
gage height and a flood-lookup hit; runs independently of the
percentile. -/
def rowFloodStatus (flood : Option (List FloodEntry)) (sid : String)
    (row : CurrentRow) : Option String :=
  match row.gage_height with
  | none => none
  | some g =>
    match buildFloodLookup flood sid with
    | none => none
    | some thr => get_flood_status (some g) (some thr)

/-- Step labelled "Add trend data if available": merge a precomputed `TrendResult` for
the site into the record. -/
def mergeTrend (trends : Option (String → Option TrendResult)) (sid : String)
    (rec : StatusRecord) : StatusRecord :=
  match trends with
  | none => rec
  | some tr =>
    match tr sid with
    | none => rec
    | some t =>
      { rec with
        trend := some t.trend
        trend_rate := some t.trend_rate
        hours_since_peak := t.hours_since_peak }

/-- Step labelled "Add temperature trend data if available". -/
def mergeTempTrend (temp_trends : Option (String → Option TrendResult))
    (sid : String) (rec : StatusRecord) : StatusRecord :=
  match temp_trends with
  | none => rec
  | some tr =>
    match tr sid with
    | none => rec
    | some t => { rec with water_temp_trend := some t.trend }

/-- Assembly of the per-station result dict (the body of the engine loop
after the `site_id is None: continue` guard). -/
def buildRecord (ref : List RefEntry) (flood : Option (List FloodEntry))
    (trends temp_trends : Option (String → Option TrendResult))
    (md now_iso sid : String) (row : CurrentRow) : StatusRecord :=
  let base : StatusRecord :=
    { site_id := sid
      flow := row.discharge
      gage_height := row.gage_height
      water_temp := row.water_temp
      percentile := none
      flow_status := none
      drought_status := none
      flood_status := none
      trend := none
      trend_rate := none
      hours_since_peak := none
      water_temp_trend := none
      timestamp := now_iso }
  let withTrend := mergeTrend trends sid base
  let withTemp := mergeTempTrend temp_trends sid withTrend
  let withPct :=
    match rowPercentileRaw ref md sid row with
    | none => withTemp
    | some pct =>
      { withTemp with
        percentile := some (pyRound 1 pct)
        flow_status := some (get_flow_status pct)
        drought_status := get_drought_status defaultDrought pct }
  match rowFloodStatus flood sid row with
  | none => withPct
  | some fs => { withPct with flood_status := some fs }

/-- The final emission filter of the engine loop: keep a record only with
a non-null percentile or a non-null flood status. -/
def emitFilter (rec : StatusRecord) : Option StatusRecord :=
  if rec.percentile.isSome || rec.flood_status.isSome then some rec else none

/-- One iteration of the engine loop. -/
def processRow (ref : List RefEntry) (flood : Option (List FloodEntry))
    (trends temp_trends : Option (String → Option TrendResult))
    (md now_iso : String) (row : CurrentRow) : Option StatusRecord :=
  match row.site_no with
  | none => none
  | some sid => emitFilter (buildRecord ref flood trends temp_trends md now_iso sid row)

/-- Function `calculate_live_percentiles(current_df, reference_df,
flood_thresholds_df, month_day, trends, temp_trends)`. -/
def calculate_live_percentiles (current_df : List CurrentRow)
    (ref : List RefEntry) (flood : Option (List FloodEntry))
    (md : String) (trends temp_trends : Option (String → Option TrendResult))
    (now_iso : String) : List StatusRecord :=
  current_df.filterMap (processRow ref flood trends temp_trends md now_iso)

/-! ## Lemmas and theorems -/

lemma meetsThresh_iff (g : ℚ) (o : Option ℚ) :
    meetsThresh g o = true ↔ ∃ v, o = some v ∧ v ≤ g := by
  cases o <;> simp [meetsThresh]

lemma meetsThresh_false_iff (g : ℚ) (o : Option ℚ) :
    meetsThresh g o = false ↔ ∀ v, o = some v → g < v := by
  cases o <;> simp [meetsThresh]

lemma gds_default_eval (p : ℚ) : get_drought_status defaultDrought p =
    if p < 2 then some "D4 - Exceptional Drought"
    else if p < 5 then some "D3 - Extreme Drought"
    else if p < 10 then some "D2 - Severe Drought"
    else if p < 20 then some "D1 - Moderate Drought"
    else if p < 30 then some "D0 - Abnormally Dry"
    else none := rfl

/-- C1 counterexample: at percentile 7 the default-configured
`get_drought_status` returns the D2 tier, not the D3 tier the claim
states. -/
theorem drought_percentile_seven_is_d2_not_d3 :
    get_drought_status defaultDrought 7 = some "D2 - Severe Drought" ∧
    get_drought_status defaultDrought 7 ≠ some "D3 - Extreme Drought" := by
  decide

/-- C1 (amended: percentile 7 falls in the D2 band [5,10), not D3): with the
default cutoffs (D0<30, D1<20, D2<10, D3<5, D4<2), `get_drought_status` is
evaluated most-severe-first and its tiers are mutually exclusive and
exhaustive over the whole percentile domain: each tier holds exactly on its
half-open band, `none` exactly at or above the D0 cutoff; in particular
percentile 1 is D4, 7 is D2, 25 is D0 and 50 is not in drought. -/
theorem drought_tiers_default_characterization :
    (∀ p : ℚ,
      (get_drought_status defaultDrought p = some "D4 - Exceptional Drought" ↔ p < 2) ∧
      (get_drought_status defaultDrought p = some "D3 - Extreme Drought" ↔ 2 ≤ p ∧ p < 5) ∧
      (get_drought_status defaultDrought p = some "D2 - Severe Drought" ↔ 5 ≤ p ∧ p < 10) ∧
      (get_drought_status defaultDrought p = some "D1 - Moderate Drought" ↔ 10 ≤ p ∧ p < 20) ∧
      (get_drought_status defaultDrought p = some "D0 - Abnormally Dry" ↔ 20 ≤ p ∧ p < 30) ∧
      (get_drought_status defaultDrought p = none ↔ 30 ≤ p)) ∧
    get_drought_status defaultDrought 1 = some "D4 - Exceptional Drought" ∧
    get_drought_status defaultDrought 7 = some "D2 - Severe Drought" ∧
    get_drought_status defaultDrought 25 = some "D0 - Abnormally Dry" ∧
    get_drought_status defaultDrought 50 = none := by
  refine ⟨fun p => ?_, by decide, by decide, by decide, by decide⟩
  rw [gds_default_eval p]
  split_ifs with h1 h2 h3 h4 h5 <;>
    refine ⟨?_, ?_, ?_, ?_, ?_, ?_⟩ <;>
    simp_all <;>
    first
      | linarith
      | (rintro ⟨a, b⟩; linarith)
      | (intro a; linarith)
      | (constructor <;> linarith)

/-- C10: under the default drought cutoffs, every percentile in `[25, 30)`
gets flow status `"Normal"` and simultaneously drought tier
`"D0 - Abnormally Dry"`. -/
theorem normal_flow_with_active_drought (p : ℚ) (h1 : 25 ≤ p) (h2 : p < 30) :
    get_flow_status p = "Normal" ∧
    get_drought_status defaultDrought p = some "D0 - Abnormally Dry" := by
  constructor
  · unfold get_flow_status
    split_ifs with h3 h4 h5 h6 <;> first | rfl | linarith
  · rw [gds_default_eval p]
    split_ifs with h3 h4 h5 h6 h7 <;> first | rfl | linarith

theorem normal_flow_with_active_drought_witness :
    get_flow_status 27 = "Normal" ∧
    get_drought_status defaultDrought 27 = some "D0 - Abnormally Dry" :=
  normal_flow_with_active_drought 27 (by norm_num) (by norm_num)

lemma gfs_eq (g : ℚ) (t : FloodThresholdRow) :
    get_flood_status (some g) (some t) =
      if meetsThresh g t.major_flood_stage then some "Major Flood"
      else if meetsThresh g t.moderate_flood_stage then some "Moderate Flood"
      else if meetsThresh g t.flood_stage then some "Minor Flood"
      else if meetsThresh g t.action_stage then some "Action Stage"
      else none := rfl

lemma meetsThresh_eq_false_iff (g : ℚ) (o : Option ℚ) :
    meetsThresh g o = false ↔ ¬ ∃ v, o = some v ∧ v ≤ g := by
  cases o <;> simp [meetsThresh]

/-- C4: `get_flood_status` needs a non-null gage height and a present
threshold row, evaluates most-severe-first with `≥` comparisons, skips
absent threshold fields, and returns `none` exactly when no present
threshold is reached (in particular when no threshold data exists); with
action=8, minor=10, moderate=14, major=18 a gage of 20 is Major Flood,
15 Moderate Flood, 11 Minor Flood, 8.5 Action Stage and 5 is `none`. -/
theorem flood_status_characterization :
    (∀ thr, get_flood_status none thr = none) ∧
    (∀ g : ℚ, get_flood_status (some g) none = none) ∧
    (∀ g t, get_flood_status (some g) (some t) = some "Major Flood" ↔
      ∃ v, t.major_flood_stage = some v ∧ v ≤ g) ∧
    (∀ g t, get_flood_status (some g) (some t) = some "Moderate Flood" ↔
      (∃ v, t.moderate_flood_stage = some v ∧ v ≤ g) ∧
      ¬ ∃ v, t.major_flood_stage = some v ∧ v ≤ g) ∧
    (∀ g t, get_flood_status (some g) (some t) = some "Minor Flood" ↔
      (∃ v, t.flood_stage = some v ∧ v ≤ g) ∧
      ¬ (∃ v, t.major_flood_stage = some v ∧ v ≤ g) ∧
      ¬ ∃ v, t.moderate_flood_stage = some v ∧ v ≤ g) ∧
    (∀ g t, get_flood_status (some g) (some t) = some "Action Stage" ↔
      (∃ v, t.action_stage = some v ∧ v ≤ g) ∧
      ¬ (∃ v, t.major_flood_stage = some v ∧ v ≤ g) ∧
      ¬ (∃ v, t.moderate_flood_stage = some v ∧ v ≤ g) ∧
      ¬ ∃ v, t.flood_stage = some v ∧ v ≤ g) ∧
    (∀ g t, get_flood_status (some g) (some t) = none ↔
      ¬ (∃ v, t.major_flood_stage = some v ∧ v ≤ g) ∧
      ¬ (∃ v, t.moderate_flood_stage = some v ∧ v ≤ g) ∧
      ¬ (∃ v, t.flood_stage = some v ∧ v ≤ g) ∧
      ¬ ∃ v, t.action_stage = some v ∧ v ≤ g) ∧
    (get_flood_status (some 20)
      (some ⟨some 8, some 10, some 14, some 18⟩) = some "Major Flood" ∧
     get_flood_status (some 15)
      (some ⟨some 8, some 10, some 14, some 18⟩) = some "Moderate Flood" ∧
     get_flood_status (some 11)
      (some ⟨some 8, some 10, some 14, some 18⟩) = some "Minor Flood" ∧
     get_flood_status (some (17/2))
      (some ⟨some 8, some 10, some 14, some 18⟩) = some "Action Stage" ∧
     get_flood_status (some 5)
      (some ⟨some 8, some 10, some 14, some 18⟩) = none) := by
  refine ⟨fun thr => rfl, fun g => rfl, ?_, ?_, ?_, ?_, ?_,
      by refine ⟨?_, ?_, ?_, ?_, ?_⟩ <;> norm_num [gfs_eq, meetsThresh]⟩ <;>
    intro g t <;> rw [gfs_eq] <;>
    split_ifs with h1 h2 h3 h4 <;>
    simp_all [meetsThresh_iff, meetsThresh_eq_false_iff]

/-- C5 counterexample: on the flat two-point curve `p05 = p10 = 7` the
value 7 is at or above the largest present threshold value, yet the result
is the smallest percentile 5 (the at-or-below-first clamp wins), not the
largest percentile 10 that the claim requires. -/
theorem interpolate_flat_curve_counterexample :
    interpolate_percentile 7
      ⟨some 7, some 7, none, none, none, none, none⟩ = some 5 ∧
    interpolate_percentile 7
      ⟨some 7, some 7, none, none, none, none, none⟩ ≠ some 10 := by
  constructor
  · rfl
  · intro h
    simp only [interpolate_percentile, validPairs, rowPairs, collectValid] at h
    norm_num at h

lemma collectValid_fst_sublist (l : List (ℚ × Option ℚ)) :
    ((collectValid l).map Prod.fst).Sublist (l.map Prod.fst) := by
  induction l with
  | nil => simp [collectValid]
  | cons hd tl ih =>
    obtain ⟨p, o⟩ := hd
    cases o with
    | none => simpa [collectValid] using ih.cons p
    | some v => simpa [collectValid] using ih.cons₂ p

lemma validPairs_fst_pairwise (r : RefRow) :
    ((validPairs r).map Prod.fst).Pairwise (· < ·) := by
  have hsub := collectValid_fst_sublist (rowPairs r)
  have hall : ((rowPairs r).map Prod.fst).Pairwise (· < ·) := by
    simp only [rowPairs, List.map_cons, List.map_nil]
    norm_num
  exact hall.sublist hsub

lemma pairwiseLt_head_le (a : ℚ) (t : List ℚ)
    (hpw : (a :: t).Pairwise (· < ·)) : ∀ p ∈ a :: t, a ≤ p := by
  intro p hp
  rcases List.mem_cons.1 hp with rfl | hm
  · exact le_refl p
  · exact le_of_lt ((List.pairwise_cons.1 hpw).1 p hm)

lemma pairwiseLt_le_getLastD :
    ∀ (t : List ℚ) (a : ℚ), (a :: t).Pairwise (· < ·) →
      ∀ p ∈ a :: t, p ≤ t.getLastD a := by
  intro t
  induction t with
  | nil =>
    intro a _ p hp
    simp only [List.mem_singleton] at hp
    simp [hp, List.getLastD_nil]
  | cons b t2 ih =>
    intro a hpw p hp
    rw [List.getLastD_cons]
    have hpw2 : (b :: t2).Pairwise (· < ·) := hpw.of_cons
    rcases List.mem_cons.1 hp with rfl | hm
    · have hb : p < b := (List.pairwise_cons.1 hpw).1 b (by simp)
      have := ih b hpw2 b (by simp)
      linarith
    · exact ih b hpw2 p hm

/-- C5 (amended: the at-or-below-first-threshold clamp is evaluated first
and wins ties, so the upper clamp needs the current value strictly above
the first present threshold value — on a flat curve a value equal to the
common threshold takes the lower clamp): with at least 2 present entries,
a current value at or below every present threshold value returns exactly
the smallest present percentile, and a current value strictly above the
first present threshold value and at or above every present threshold
value returns exactly the largest present percentile. -/
theorem interpolate_percentile_clamps (r : RefRow) (cf : ℚ)
    (hlen : 2 ≤ (validPairs r).length) :
    ((∀ v ∈ (validPairs r).map Prod.snd, cf ≤ v) →
      ∃ q, interpolate_percentile cf r = some q ∧
        q ∈ (validPairs r).map Prod.fst ∧
        ∀ p ∈ (validPairs r).map Prod.fst, q ≤ p) ∧
    ((((validPairs r).map Prod.snd).headD 0 < cf) →
      (∀ v ∈ (validPairs r).map Prod.snd, v ≤ cf) →
      ∃ q, interpolate_percentile cf r = some q ∧
        q ∈ (validPairs r).map Prod.fst ∧
        ∀ p ∈ (validPairs r).map Prod.fst, p ≤ q) := by
  have hpw := validPairs_fst_pairwise r
  rcases hv : validPairs r with _ | ⟨⟨p0, t0⟩, tl⟩
  · rw [hv] at hlen; simp at hlen
  rcases tl with _ | ⟨⟨p1, t1⟩, rest⟩
  · rw [hv] at hlen; simp at hlen
  rw [hv] at hpw
  simp only [List.map_cons] at hpw
  have hip : interpolate_percentile cf r =
      if cf ≤ t0 then some p0
      else if (rest.map Prod.snd).getLastD t1 ≤ cf then
        some ((rest.map Prod.fst).getLastD p1)
      else some (npInterp cf
        ((t0, p0) :: (t1, p1) :: rest.map (fun pv => (pv.2, pv.1)))) := by
    simp only [interpolate_percentile, hv, List.length_cons, List.map_cons,
      List.headD_cons, List.getLastD_cons]
    rw [if_neg (by omega)]
  simp only [hv, List.map_cons, List.headD_cons]
  constructor
  · intro hall
    have h0 : cf ≤ t0 := hall t0 (by simp)
    rw [hip, if_pos h0]
    exact ⟨p0, rfl, by simp, pairwiseLt_head_le p0 _ hpw⟩
  · intro hhead hall
    have hlast : (rest.map Prod.snd).getLastD t1 ≤ cf := by
      refine hall _ ?_
      exact List.mem_cons_of_mem t0 (List.getLastD_mem_cons _ _)
    rw [hip, if_neg (not_le.2 hhead), if_pos hlast]
    refine ⟨(rest.map Prod.fst).getLastD p1, rfl, ?_, ?_⟩
    · exact List.mem_cons_of_mem p0 (List.getLastD_mem_cons _ _)
    · have h := pairwiseLt_le_getLastD (p1 :: rest.map Prod.fst) p0 hpw
      rw [List.getLastD_cons] at h
      exact h

theorem interpolate_percentile_clamps_witness :
    (∃ q, interpolate_percentile 2
        ⟨some 3, some 4, none, none, none, none, none⟩ = some q ∧
      q ∈ (validPairs ⟨some 3, some 4, none, none, none, none, none⟩).map Prod.fst ∧
      ∀ p ∈ (validPairs ⟨some 3, some 4, none, none, none, none, none⟩).map Prod.fst,
        q ≤ p) ∧
    (∃ q, interpolate_percentile 10
        ⟨some 3, some 4, none, none, none, none, none⟩ = some q ∧
      q ∈ (validPairs ⟨some 3, some 4, none, none, none, none, none⟩).map Prod.fst ∧
      ∀ p ∈ (validPairs ⟨some 3, some 4, none, none, none, none, none⟩).map Prod.fst,
        p ≤ q) :=
  ⟨(interpolate_percentile_clamps _ 2
      (by norm_num [validPairs, rowPairs, collectValid])).1
      (by norm_num [validPairs, rowPairs, collectValid]),
   (interpolate_percentile_clamps _ 10
      (by norm_num [validPairs, rowPairs, collectValid])).2
      (by norm_num [validPairs, rowPairs, collectValid])
      (by norm_num [validPairs, rowPairs, collectValid])⟩

/-! Monotonicity of the interpolation (claim C6). -/

lemma segment_ge (x0 f0 x1 f1 x : ℚ) (hx0 : x0 ≤ x) (hx1 : x < x1)
    (hf : f0 ≤ f1) :
    f0 ≤ if x = x0 then f0 else f0 + (f1 - f0) * (x - x0) / (x1 - x0) := by
  split_ifs with h
  · exact le_refl f0
  · have hx0' : x0 < x := lt_of_le_of_ne hx0 (Ne.symm h)
    have hpos : 0 ≤ (f1 - f0) * (x - x0) / (x1 - x0) :=
      div_nonneg (mul_nonneg (by linarith) (by linarith)) (by linarith)
    linarith

lemma segment_le (x0 f0 x1 f1 x : ℚ) (hx0 : x0 ≤ x) (hx1 : x < x1)
    (hf : f0 ≤ f1) :
    (if x = x0 then f0 else f0 + (f1 - f0) * (x - x0) / (x1 - x0)) ≤ f1 := by
  split_ifs with h
  · exact hf
  · have hden : 0 < x1 - x0 := by linarith
    have key : (f1 - f0) * (x - x0) ≤ (f1 - f0) * (x1 - x0) :=
      mul_le_mul_of_nonneg_left (by linarith) (by linarith)
    have h2 : (f1 - f0) * (x - x0) / (x1 - x0) ≤
        (f1 - f0) * (x1 - x0) / (x1 - x0) := (div_le_div_right hden).2 key
    have h3 : (f1 - f0) * (x1 - x0) / (x1 - x0) = f1 - f0 :=
      mul_div_cancel_right₀ _ (ne_of_gt hden)
    linarith

lemma segment_mono (x0 f0 x1 f1 x y : ℚ) (hx0 : x0 ≤ x) (hxy : x ≤ y)
    (hy1 : y < x1) (hf : f0 ≤ f1) :
    (if x = x0 then f0 else f0 + (f1 - f0) * (x - x0) / (x1 - x0)) ≤
    (if y = x0 then f0 else f0 + (f1 - f0) * (y - x0) / (x1 - x0)) := by
  split_ifs with h1 h2 h2
  · exact le_refl f0
  · have hx0' : x0 < y := lt_of_le_of_ne (hx0.trans hxy) (Ne.symm h2)
    have hpos : 0 ≤ (f1 - f0) * (y - x0) / (x1 - x0) :=
      div_nonneg (mul_nonneg (by linarith) (by linarith)) (by linarith)
    linarith
  · have hx0' : x0 < x := lt_of_le_of_ne hx0 (Ne.symm h1)
    exact absurd h2 (by intro he; rw [he] at hxy; linarith)
  · have hx0' : x0 < x := lt_of_le_of_ne hx0 (Ne.symm h1)
    have hden : 0 < x1 - x0 := by linarith
    have key : (f1 - f0) * (x - x0) ≤ (f1 - f0) * (y - x0) :=
      mul_le_mul_of_nonneg_left (by linarith) (by linarith)
    have h2 := (div_le_div_right hden).2 key
    linarith

lemma chainLe_le_getLastD :
    ∀ (t : List ℚ) (a : ℚ), List.Chain' (· ≤ ·) (a :: t) → a ≤ t.getLastD a := by
  intro t
  induction t with
  | nil => intro a _; simp [List.getLastD_nil]
  | cons b t2 ih =>
    intro a hc
    rw [List.getLastD_cons]
    rw [List.chain'_cons] at hc
    exact hc.1.trans (ih b hc.2)

lemma npInterp_ge_head :
    ∀ (t : List (ℚ × ℚ)) (a : ℚ × ℚ) (x : ℚ),
      List.Chain' (· ≤ ·) ((a :: t).map Prod.fst) →
      List.Chain' (· ≤ ·) ((a :: t).map Prod.snd) →
      a.1 ≤ x → a.2 ≤ npInterp x (a :: t) := by
  intro t
  induction t with
  | nil =>
    intro a x _ _ _
    obtain ⟨x0, f0⟩ := a
    simp [npInterp]
  | cons b t2 ih =>
    intro a x hc1 hc2 hax
    obtain ⟨x0, f0⟩ := a
    obtain ⟨x1, f1⟩ := b
    simp only [List.map_cons, List.chain'_cons] at hc1 hc2
    simp only [npInterp]
    by_cases hx1 : x1 ≤ x
    · rw [if_pos hx1]
      have h2 := ih (x1, f1) x (by simp only [List.map_cons]; exact hc1.2)
        (by simp only [List.map_cons]; exact hc2.2) hx1
      exact le_trans hc2.1 h2
    · rw [if_neg hx1]
      push_neg at hx1
      exact segment_ge x0 f0 x1 f1 x hax hx1 hc2.1

lemma npInterp_le_getLastD :
    ∀ (t : List (ℚ × ℚ)) (a : ℚ × ℚ) (x : ℚ),
      List.Chain' (· ≤ ·) ((a :: t).map Prod.fst) →
      List.Chain' (· ≤ ·) ((a :: t).map Prod.snd) →
      a.1 ≤ x → x < (t.getLastD a).1 →
      npInterp x (a :: t) ≤ (t.getLastD a).2 := by
  intro t
  induction t with
  | nil =>
    intro a x _ _ _ _
    obtain ⟨x0, f0⟩ := a
    simp [npInterp, List.getLastD_nil]
  | cons b t2 ih =>
    intro a x hc1 hc2 hax hlast
    obtain ⟨x0, f0⟩ := a
    obtain ⟨x1, f1⟩ := b
    rw [List.getLastD_cons] at hlast ⊢
    simp only [List.map_cons, List.chain'_cons] at hc1 hc2
    simp only [npInterp]
    by_cases hx1 : x1 ≤ x
    · rw [if_pos hx1]
      exact ih (x1, f1) x (by simp only [List.map_cons]; exact hc1.2)
        (by simp only [List.map_cons]; exact hc2.2) hx1 hlast
    · rw [if_neg hx1]
      push_neg at hx1
      have hseg := segment_le x0 f0 x1 f1 x hax hx1 hc2.1
      have hchain : f1 ≤ (List.map Prod.snd t2).getLastD f1 :=
        chainLe_le_getLastD (List.map Prod.snd t2) f1 hc2.2
      have hmap : (List.map Prod.snd t2).getLastD f1 =
          (t2.getLastD (x1, f1)).2 :=
        List.getLastD_map Prod.snd t2 (x1, f1)
      rw [hmap] at hchain
      exact hseg.trans hchain

lemma npInterp_mono :
    ∀ (t : List (ℚ × ℚ)) (a : ℚ × ℚ) (x y : ℚ),
      List.Chain' (· ≤ ·) ((a :: t).map Prod.fst) →
      List.Chain' (· ≤ ·) ((a :: t).map Prod.snd) →
      a.1 ≤ x → x ≤ y → y < (t.getLastD a).1 →
      npInterp x (a :: t) ≤ npInterp y (a :: t) := by
  intro t
  induction t with
  | nil =>
    intro a x y _ _ _ _ _
    obtain ⟨x0, f0⟩ := a
    simp [npInterp]
  | cons b t2 ih =>
    intro a x y hc1 hc2 hax hxy hlast
    obtain ⟨x0, f0⟩ := a
    obtain ⟨x1, f1⟩ := b
    rw [List.getLastD_cons] at hlast
    simp only [List.map_cons, List.chain'_cons] at hc1 hc2
    simp only [npInterp]
    by_cases hbx : x1 ≤ x
    · have hby : x1 ≤ y := hbx.trans hxy
      rw [if_pos hbx, if_pos hby]
      exact ih (x1, f1) x y (by simp only [List.map_cons]; exact hc1.2)
        (by simp only [List.map_cons]; exact hc2.2) hbx hxy hlast
    · push_neg at hbx
      by_cases hby : x1 ≤ y
      · rw [if_neg (not_le.2 hbx), if_pos hby]
        have hle := segment_le x0 f0 x1 f1 x hax hbx hc2.1
        have hge := npInterp_ge_head t2 (x1, f1) y
          (by simp only [List.map_cons]; exact hc1.2)
          (by simp only [List.map_cons]; exact hc2.2) hby
        exact hle.trans hge
      · push_neg at hby
        rw [if_neg (not_le.2 hbx), if_neg (not_le.2 hby)]
        exact segment_mono x0 f0 x1 f1 x y hax hxy hby hc2.1

lemma interpolate_eval (cf p0 t0 p1 t1 : ℚ) (rest : List (ℚ × ℚ)) (r : RefRow)
    (hval : validPairs r = (p0, t0) :: (p1, t1) :: rest) :
    interpolate_percentile cf r =
      if cf ≤ t0 then some p0
      else if (rest.map Prod.snd).getLastD t1 ≤ cf then
        some ((rest.map Prod.fst).getLastD p1)
      else some (npInterp cf
        ((t0, p0) :: (t1, p1) :: rest.map (fun pv => (pv.2, pv.1)))) := by
  simp only [interpolate_percentile, hval, List.length_cons, List.map_cons,
    List.headD_cons, List.getLastD_cons]
  rw [if_neg (by omega)]

/-- C6: interpolation is monotone.  For a fixed threshold curve with at
least 2 present entries whose values are monotonic non-decreasing in
percentile order, and current values `v1 ≤ v2`, the interpolated
percentiles satisfy `q1 ≤ q2`. -/
theorem interpolate_percentile_monotone (r : RefRow) (v1 v2 : ℚ)
    (hlen : 2 ≤ (validPairs r).length)
    (hmono : List.Chain' (· ≤ ·) ((validPairs r).map Prod.snd))
    (hv : v1 ≤ v2) :
    ∀ q1 q2, interpolate_percentile v1 r = some q1 →
      interpolate_percentile v2 r = some q2 → q1 ≤ q2 := by
  have hpw := validPairs_fst_pairwise r
  rcases hval : validPairs r with _ | ⟨⟨p0, t0⟩, tl⟩
  · rw [hval] at hlen; simp at hlen
  rcases tl with _ | ⟨⟨p1, t1⟩, rest⟩
  · rw [hval] at hlen; simp at hlen
  rw [hval] at hpw hmono
  simp only [List.map_cons] at hpw hmono
  have hswapfst : ((rest.map (fun pv : ℚ × ℚ => (pv.2, pv.1))).map Prod.fst)
      = rest.map Prod.snd := by
    simp [List.map_map]
  have hswapsnd : ((rest.map (fun pv : ℚ × ℚ => (pv.2, pv.1))).map Prod.snd)
      = rest.map Prod.fst := by
    simp [List.map_map]
  have hcs : List.Chain' (· ≤ ·) (p0 :: p1 :: rest.map Prod.fst) :=
    hpw.chain'.imp (fun a b h => le_of_lt h)
  have hchf : List.Chain' (· ≤ ·)
      (((t0, p0) :: (t1, p1) ::
        rest.map (fun pv : ℚ × ℚ => (pv.2, pv.1))).map Prod.fst) := by
    simp only [List.map_cons, hswapfst]; exact hmono
  have hchs : List.Chain' (· ≤ ·)
      (((t0, p0) :: (t1, p1) ::
        rest.map (fun pv : ℚ × ℚ => (pv.2, pv.1))).map Prod.snd) := by
    simp only [List.map_cons, hswapsnd]; exact hcs
  have hfstLast : (((rest.map (fun pv : ℚ × ℚ => (pv.2, pv.1))).getLastD
      (t1, p1)).1) = (rest.map Prod.snd).getLastD t1 := by
    rw [← hswapfst]
    exact (List.getLastD_map Prod.fst
      (rest.map (fun pv : ℚ × ℚ => (pv.2, pv.1))) (t1, p1)).symm
  have hsndLast : (((rest.map (fun pv : ℚ × ℚ => (pv.2, pv.1))).getLastD
      (t1, p1)).2) = (rest.map Prod.fst).getLastD p1 := by
    rw [← hswapsnd]
    exact (List.getLastD_map Prod.snd
      (rest.map (fun pv : ℚ × ℚ => (pv.2, pv.1))) (t1, p1)).symm
  intro q1 q2 h1 h2
  rw [interpolate_eval v1 p0 t0 p1 t1 rest r hval] at h1
  rw [interpolate_eval v2 p0 t0 p1 t1 rest r hval] at h2
  have hp0max := pairwiseLt_le_getLastD (p1 :: rest.map Prod.fst) p0 hpw
  rw [List.getLastD_cons] at hp0max
  by_cases c1 : v1 ≤ t0
  · rw [if_pos c1] at h1
    injection h1 with h1
    subst h1
    by_cases c1' : v2 ≤ t0
    · rw [if_pos c1'] at h2
      injection h2 with h2
      subst h2
      exact le_rfl
    · rw [if_neg c1'] at h2
      push_neg at c1'
      by_cases c2' : (rest.map Prod.snd).getLastD t1 ≤ v2
      · rw [if_pos c2'] at h2
        injection h2 with h2
        subst h2
        exact hp0max p0 (by simp)
      · rw [if_neg c2'] at h2
        injection h2 with h2
        subst h2
        exact npInterp_ge_head _ (t0, p0) v2 hchf hchs (le_of_lt c1')
  · push_neg at c1
    have c1' : ¬ v2 ≤ t0 := by push_neg; linarith
    rw [if_neg (not_le.2 c1)] at h1
    rw [if_neg c1'] at h2
    by_cases c2 : (rest.map Prod.snd).getLastD t1 ≤ v1
    · have c2' : (rest.map Prod.snd).getLastD t1 ≤ v2 := c2.trans hv
      rw [if_pos c2] at h1
      rw [if_pos c2'] at h2
      injection h1 with h1
      injection h2 with h2
      subst h1; subst h2
      exact le_rfl
    · push_neg at c2
      rw [if_neg (not_le.2 c2)] at h1
      injection h1 with h1
      subst h1
      by_cases c2' : (rest.map Prod.snd).getLastD t1 ≤ v2
      · rw [if_pos c2'] at h2
        injection h2 with h2
        subst h2
        have := npInterp_le_getLastD
          ((t1, p1) :: rest.map (fun pv : ℚ × ℚ => (pv.2, pv.1)))
          (t0, p0) v1 hchf hchs (le_of_lt c1)
          (by rw [List.getLastD_cons, hfstLast]; exact c2)
        rw [List.getLastD_cons, hsndLast] at this
        exact this
      · push_neg at c2'
        rw [if_neg (not_le.2 c2')] at h2
        injection h2 with h2
        subst h2
        exact npInterp_mono
          ((t1, p1) :: rest.map (fun pv : ℚ × ℚ => (pv.2, pv.1)))
          (t0, p0) v1 v2 hchf hchs (le_of_lt c1) hv
          (by rw [List.getLastD_cons, hfstLast]; exact c2')

theorem interpolate_percentile_monotone_witness :
    interpolate_percentile 0
      ⟨some 10, some 20, some 40, none, none, none, none⟩ = some 5 ∧
    interpolate_percentile 100
      ⟨some 10, some 20, some 40, none, none, none, none⟩ = some 25 ∧
    (5 : ℚ) ≤ 25 :=
  ⟨rfl, rfl,
   interpolate_percentile_monotone
     ⟨some 10, some 20, some 40, none, none, none, none⟩ 0 100
     (by norm_num [validPairs, rowPairs, collectValid])
     (by norm_num [validPairs, rowPairs, collectValid])
     (by norm_num) 5 25 rfl rfl⟩

lemma mean_const (l : List ℚ) (c : ℚ) (hne : l ≠ []) (h : ∀ x ∈ l, x = c) :
    mean l = c := by
  have hs : l.sum = l.length • c := List.sum_eq_card_nsmul l c h
  have hlen : (l.length : ℚ) ≠ 0 :=
    Nat.cast_ne_zero.2 (fun hh => hne (List.length_eq_zero.1 hh))
  rw [mean, hs, nsmul_eq_mul, mul_div_cancel_left₀ c hlen]

lemma variance_const (l : List ℚ) (c : ℚ) (hne : l ≠ []) (h : ∀ x ∈ l, x = c) :
    variance l = 0 := by
  rw [variance]
  have hz : (l.map (fun x => (x - mean l) ^ 2)).sum = 0 := by
    refine List.sum_eq_zero ?_
    intro y hy
    obtain ⟨x, hx, rfl⟩ := List.mem_map.1 hy
    rw [h x hx, mean_const l c hne h]
    ring
  rw [hz, zero_div]

/-- C7: `calculate_trend` (default `min_data_points = 4`) recovers every
degenerate series locally, returning a sentinel with zero rate and null
peak, in guard order: a series of fewer than 4 points is `unknown`; an
all-identical series (which passes the length guard) is `stable`; a
non-degenerate-variance series spanning under 0.1 hour is `unknown`; one
whose median is below the 1e-10 guard is `unknown`.  The embedding is a
total function, so no path can propagate an error. -/
theorem calculate_trend_degenerate (history : List (ℚ × ℚ)) (rt ft : ℚ) :
    (history.length < 4 →
      calculate_trend history rt ft 4 =
        ⟨"unknown", 0, none, history.length⟩) ∧
    (4 ≤ history.length → (∃ c, ∀ x ∈ flowsOf history, x = c) →
      calculate_trend history rt ft 4 =
        ⟨"stable", 0, none, history.length⟩) ∧
    (4 ≤ history.length →
      ¬ variance (flowsOf history) < 1 / 10 ^ 20 →
      totalHoursOf history < 1 / 10 →
      calculate_trend history rt ft 4 =
        ⟨"unknown", 0, none, history.length⟩) ∧
    (4 ≤ history.length →
      ¬ variance (flowsOf history) < 1 / 10 ^ 20 →
      ¬ totalHoursOf history < 1 / 10 →
      median (flowsOf history) < 1 / 10 ^ 10 →
      calculate_trend history rt ft 4 =
        ⟨"unknown", 0, none, history.length⟩) := by
  refine ⟨?_, ?_, ?_, ?_⟩
  · intro h
    simp only [calculate_trend]
    rw [if_pos h]
  · rintro hlen ⟨c, hc⟩
    have hne : flowsOf history ≠ [] := by
      intro hnil
      have h0 : history = [] := List.map_eq_nil.1 hnil
      rw [h0] at hlen
      simp at hlen
    have hv : variance (flowsOf history) = 0 := variance_const _ c hne hc
    simp only [calculate_trend]
    rw [if_neg (not_lt.2 hlen), if_pos (by rw [hv]; norm_num)]
  · intro hlen h2 h3
    simp only [calculate_trend]
    rw [if_neg (not_lt.2 hlen), if_neg h2, if_pos h3]
  · intro hlen h2 h3 h4
    simp only [calculate_trend]
    rw [if_neg (not_lt.2 hlen), if_neg h2, if_neg h3, if_pos h4]

theorem calculate_trend_degenerate_witness :
    calculate_trend [] 5 (-5) 4 = ⟨"unknown", 0, none, 0⟩ ∧
    calculate_trend [(0, 7), (3600, 7), (7200, 7), (10800, 7)] 5 (-5) 4 =
      ⟨"stable", 0, none, 4⟩ ∧
    calculate_trend [(0, 10), (60, 20), (120, 30), (180, 40)] 5 (-5) 4 =
      ⟨"unknown", 0, none, 4⟩ ∧
    calculate_trend [(0, -10), (3600, -20), (7200, 20), (10800, 0)] 5 (-5) 4 =
      ⟨"unknown", 0, none, 4⟩ :=
  ⟨(calculate_trend_degenerate [] 5 (-5)).1 (by norm_num),
   (calculate_trend_degenerate _ 5 (-5)).2.1 (by norm_num)
     ⟨7, by intro x hx; simp [flowsOf] at hx; simpa using hx⟩,
   (calculate_trend_degenerate _ 5 (-5)).2.2.1 (by norm_num)
     (by norm_num [variance, mean, flowsOf])
     (by norm_num [totalHoursOf, hoursOf, timesOf]),
   (calculate_trend_degenerate _ 5 (-5)).2.2.2 (by norm_num)
     (by norm_num [variance, mean, flowsOf])
     (by norm_num [totalHoursOf, hoursOf, timesOf])
     (by norm_num [median, flowsOf, List.insertionSort, List.orderedInsert])⟩

/-- C2: past the degenerate-case guards, `calculate_trend` classifies from
`total_change = slope * total_span_hours`: at or above the rising threshold
it is `rising`, otherwise at or below the falling threshold it is
`falling`, otherwise `stable`; `hours_since_peak` (time from the first
maximum raw value to the last sample) is reported, rounded to one decimal,
exactly on the falling branch when it exceeds half an hour, and is null in
every other case. -/
theorem calculate_trend_classification (history : List (ℚ × ℚ))
    (rt ft : ℚ) (mp : ℕ)
    (h1 : ¬ history.length < mp)
    (h2 : ¬ variance (flowsOf history) < 1 / 10 ^ 20)
    (h3 : ¬ totalHoursOf history < 1 / 10)
    (h4 : ¬ median (flowsOf history) < 1 / 10 ^ 10) :
    (rt ≤ totalChangeOf history →
      calculate_trend history rt ft mp =
        ⟨"rising", pyRound 3 (slopeOf history), none, history.length⟩) ∧
    (¬ rt ≤ totalChangeOf history → totalChangeOf history ≤ ft →
      calculate_trend history rt ft mp =
        ⟨"falling", pyRound 3 (slopeOf history),
          (if 1 / 2 < peakDeltaHours history then
            some (pyRound 1 (peakDeltaHours history)) else none),
          history.length⟩) ∧
    (¬ rt ≤ totalChangeOf history → ¬ totalChangeOf history ≤ ft →
      calculate_trend history rt ft mp =
        ⟨"stable", pyRound 3 (slopeOf history), none, history.length⟩) := by
  refine ⟨?_, ?_, ?_⟩
  · intro hr
    simp only [calculate_trend]
    rw [if_neg h1, if_neg h2, if_neg h3, if_neg h4, if_pos hr]
  · intro hnr hf
    simp only [calculate_trend]
    rw [if_neg h1, if_neg h2, if_neg h3, if_neg h4, if_neg hnr, if_pos hf]
    by_cases hd : 1 / 2 < peakDeltaHours history
    · have hd0 : ¬ peakDeltaHours history = 0 := by
        intro h0; rw [h0] at hd; norm_num at hd
      rw [if_pos hd, if_pos hd, if_neg hd0]
    · rw [if_neg hd, if_neg hd]
  · intro hnr hnf
    simp only [calculate_trend]
    rw [if_neg h1, if_neg h2, if_neg h3, if_neg h4, if_neg hnr, if_neg hnf]

theorem calculate_trend_classification_witness :
    calculate_trend [(0, 40), (3600, 30), (7200, 20), (10800, 10)] 5 (-5) 4 =
      ⟨"falling",
        pyRound 3 (slopeOf [(0, 40), (3600, 30), (7200, 20), (10800, 10)]),
        (if 1 / 2 <
            peakDeltaHours [(0, 40), (3600, 30), (7200, 20), (10800, 10)] then
          some (pyRound 1
            (peakDeltaHours [(0, 40), (3600, 30), (7200, 20), (10800, 10)]))
         else none),
        4⟩ :=
  (calculate_trend_classification _ 5 (-5) 4
    (by norm_num)
    (by norm_num [variance, mean, flowsOf])
    (by norm_num [totalHoursOf, hoursOf, timesOf])
    (by norm_num [median, flowsOf, List.insertionSort, List.orderedInsert])).2.1
    (by norm_num [totalChangeOf, slopeOf, totalHoursOf, olsSlope, hoursOf,
      timesOf, normalizedOf, flowsOf, median, List.insertionSort,
      List.orderedInsert])
    (by norm_num [totalChangeOf, slopeOf, totalHoursOf, olsSlope, hoursOf,
      timesOf, normalizedOf, flowsOf, median, List.insertionSort,
      List.orderedInsert])

/-- C9: `calculate_temp_trend` (modelled from the spec) skips median
normalization: past the guards — which do not include a median guard — its
rate is the least-squares slope of the raw degree values and it classifies
the raw-degree total change against the absolute-degree thresholds, whose
configured defaults are +1.0 and −1.0 degrees. -/
theorem calculate_temp_trend_raw_regression (history : List (ℚ × ℚ))
    (rt ft : ℚ) (mp : ℕ)
    (h1 : ¬ history.length < mp)
    (h2 : ¬ variance (flowsOf history) < 1 / 10 ^ 20)
    (h3 : ¬ totalHoursOf history < 1 / 10) :
    defaultTrend.temp_rising_threshold = 1 ∧
    defaultTrend.temp_falling_threshold = -1 ∧
    (calculate_temp_trend history rt ft mp).trend_rate =
      pyRound 3 (olsSlope (hoursOf history) (flowsOf history)) ∧
    (calculate_temp_trend history rt ft mp).trend =
      (if rt ≤ olsSlope (hoursOf history) (flowsOf history) *
          totalHoursOf history then "rising"
       else if olsSlope (hoursOf history) (flowsOf history) *
          totalHoursOf history ≤ ft then "falling"
       else "stable") := by
  refine ⟨rfl, rfl, ?_, ?_⟩ <;>
    (simp only [calculate_temp_trend]
     rw [if_neg h1, if_neg h2, if_neg h3]
     split_ifs <;> rfl)

theorem calculate_temp_trend_raw_regression_witness :
    defaultTrend.temp_rising_threshold = 1 ∧
    defaultTrend.temp_falling_threshold = -1 ∧
    (calculate_temp_trend [(0, 10), (3600, 11), (7200, 12), (10800, 13)]
        1 (-1) 4).trend_rate =
      pyRound 3 (olsSlope
        (hoursOf [(0, 10), (3600, 11), (7200, 12), (10800, 13)])
        (flowsOf [(0, 10), (3600, 11), (7200, 12), (10800, 13)])) ∧
    (calculate_temp_trend [(0, 10), (3600, 11), (7200, 12), (10800, 13)]
        1 (-1) 4).trend =
      (if (1 : ℚ) ≤ olsSlope
          (hoursOf [(0, 10), (3600, 11), (7200, 12), (10800, 13)])
          (flowsOf [(0, 10), (3600, 11), (7200, 12), (10800, 13)]) *
          totalHoursOf [(0, 10), (3600, 11), (7200, 12), (10800, 13)] then
        "rising"
       else if olsSlope
          (hoursOf [(0, 10), (3600, 11), (7200, 12), (10800, 13)])
          (flowsOf [(0, 10), (3600, 11), (7200, 12), (10800, 13)]) *
          totalHoursOf [(0, 10), (3600, 11), (7200, 12), (10800, 13)] ≤
          (-1 : ℚ) then "falling"
       else "stable") :=
  calculate_temp_trend_raw_regression _ 1 (-1) 4
    (by norm_num)
    (by norm_num [variance, mean, flowsOf])
    (by norm_num [totalHoursOf, hoursOf, timesOf])

/-- C8: the reference cache is read-through with explicit-only
invalidation: a successful load caches its table under the state key; any
call with `use_cache` on a cached key returns the cached table against any
store state without consulting the store; `clear_cache` empties the cache;
and a key absent from both the local directory and S3 yields `none` (a
not-found signal — the embedding is total, so no exception) and caches
nothing. -/
theorem reference_cache_read_through (store store2 : RefStore)
    (cache : RefCache) (sc : String) (t : RefTable) :
    ((load_reference_data store cache sc true).1 = some t →
      cacheLookup (load_reference_data store cache sc true).2.1 sc = some t) ∧
    (cacheLookup cache sc = some t →
      load_reference_data store2 cache sc true = (some t, cache, false)) ∧
    (cacheLookup (clear_cache cache) sc = none) ∧
    (cacheLookup cache sc = none →
      (store.localDir = none ∨ ∃ d, store.localDir = some d ∧ d sc = none) →
      store.s3 sc = none →
      load_reference_data store cache sc true = (none, cache, true)) := by
  refine ⟨?_, ?_, rfl, ?_⟩
  · intro hres
    by_cases hc : (cacheLookup cache sc).isSome
    · rw [load_reference_data, if_pos ⟨rfl, hc⟩] at hres ⊢
      exact hres
    · rw [load_reference_data, if_neg (by simp [hc])] at hres ⊢
      rcases hf : storeFetch store sc with _ | u
      · rw [hf] at hres
        simp at hres
      · rw [hf] at hres
        simp at hres
        subst hres
        simp [cacheLookup, List.find?_cons]
  · intro hc
    rw [load_reference_data, if_pos ⟨rfl, by rw [hc]; rfl⟩, hc]
  · intro hc hld hs3
    have hf : storeFetch store sc = none := by
      rcases hld with h | ⟨d, hd, hdsc⟩
      · simp [storeFetch, h, hs3]
      · simp [storeFetch, hd, hdsc, hs3]
    rw [load_reference_data, if_neg (by simp [hc]), hf]

theorem reference_cache_read_through_witness :
    cacheLookup (load_reference_data
      ⟨none, fun k => if k = "VT" then some [] else none⟩
      [] "VT" true).2.1 "VT" = some [] ∧
    load_reference_data ⟨none, fun _ => none⟩ [("VT", [])] "VT" true =
      (some [], [("VT", [])], false) ∧
    cacheLookup (clear_cache [("VT", [])]) "VT" = none ∧
    load_reference_data ⟨none, fun _ => none⟩ [] "NH" true =
      (none, [], true) :=
  ⟨(reference_cache_read_through
      ⟨none, fun k => if k = "VT" then some [] else none⟩
      ⟨none, fun _ => none⟩ [] "VT" []).1 rfl,
   (reference_cache_read_through ⟨none, fun _ => none⟩
      ⟨none, fun _ => none⟩ [("VT", [])] "VT" []).2.1 rfl,
   (reference_cache_read_through ⟨none, fun _ => none⟩
      ⟨none, fun _ => none⟩ [("VT", [])] "VT" []).2.2.1,
   (reference_cache_read_through ⟨none, fun _ => none⟩
      ⟨none, fun _ => none⟩ [] "NH" []).2.2.2 rfl (Or.inl rfl) rfl⟩

lemma mergeTrend_status_fields (trends : Option (String → Option TrendResult))
    (sid : String) (rec : StatusRecord) :
    (mergeTrend trends sid rec).percentile = rec.percentile ∧
    (mergeTrend trends sid rec).flow_status = rec.flow_status ∧
    (mergeTrend trends sid rec).drought_status = rec.drought_status ∧
    (mergeTrend trends sid rec).flood_status = rec.flood_status := by
  rcases trends with _ | tr
  · exact ⟨rfl, rfl, rfl, rfl⟩
  · rcases htt : tr sid with _ | t <;> simp [mergeTrend, htt]

lemma mergeTempTrend_status_fields
    (temp_trends : Option (String → Option TrendResult))
    (sid : String) (rec : StatusRecord) :
    (mergeTempTrend temp_trends sid rec).percentile = rec.percentile ∧
    (mergeTempTrend temp_trends sid rec).flow_status = rec.flow_status ∧
    (mergeTempTrend temp_trends sid rec).drought_status = rec.drought_status ∧
    (mergeTempTrend temp_trends sid rec).flood_status = rec.flood_status := by
  rcases temp_trends with _ | tr
  · exact ⟨rfl, rfl, rfl, rfl⟩
  · rcases htt : tr sid with _ | t <;> simp [mergeTempTrend, htt]

lemma buildRecord_status_fields (ref : List RefEntry)
    (flood : Option (List FloodEntry))
    (trends temp_trends : Option (String → Option TrendResult))
    (md now_iso sid : String) (row : CurrentRow) :
    (buildRecord ref flood trends temp_trends md now_iso sid row).percentile =
      (rowPercentileRaw ref md sid row).map (pyRound 1) ∧
    (buildRecord ref flood trends temp_trends md now_iso sid row).flow_status =
      (rowPercentileRaw ref md sid row).map get_flow_status ∧
    (buildRecord ref flood trends temp_trends md now_iso sid row).drought_status =
      (rowPercentileRaw ref md sid row).bind (get_drought_status defaultDrought) ∧
    (buildRecord ref flood trends temp_trends md now_iso sid row).flood_status =
      rowFloodStatus flood sid row := by
  obtain ⟨h1, h2, h3, h4⟩ := mergeTempTrend_status_fields temp_trends sid
    (mergeTrend trends sid
      { site_id := sid, flow := row.discharge, gage_height := row.gage_height
        water_temp := row.water_temp, percentile := none, flow_status := none
        drought_status := none, flood_status := none, trend := none
        trend_rate := none, hours_since_peak := none, water_temp_trend := none
        timestamp := now_iso })
  obtain ⟨g1, g2, g3, g4⟩ := mergeTrend_status_fields trends sid
    { site_id := sid, flow := row.discharge, gage_height := row.gage_height
      water_temp := row.water_temp, percentile := none, flow_status := none
      drought_status := none, flood_status := none, trend := none
      trend_rate := none, hours_since_peak := none, water_temp_trend := none
      timestamp := now_iso }
  rcases hp : rowPercentileRaw ref md sid row with _ | pct <;>
    rcases hf : rowFloodStatus flood sid row with _ | fs <;>
    simp [buildRecord, hp, hf, h1, h2, h3, h4, g1, g2, g3, g4]

lemma emitFilter_some {r rec : StatusRecord} (h : emitFilter r = some rec) :
    rec = r ∧ (rec.percentile.isSome ∨ rec.flood_status.isSome) := by
  unfold emitFilter at h
  split_ifs at h with hc
  · injection h with h
    subst h
    exact ⟨rfl, by simpa [Bool.or_eq_true] using hc⟩

/-- C3: the engine emits a record for a station exactly when its computed
percentile or its computed flood status is non-null: every emitted record
carries one of the two; a row whose site has no reference match and no
flood-threshold entry yields no record; and a row with only a flood status
yields a record with null percentile, flow status and drought status but
that flood status (flood classification is independent of percentile
availability). -/
theorem engine_emission_filter (ref : List RefEntry)
    (flood : Option (List FloodEntry))
    (trends temp_trends : Option (String → Option TrendResult))
    (md now_iso : String) (current : List CurrentRow) :
    (∀ rec ∈ calculate_live_percentiles current ref flood md trends
        temp_trends now_iso,
      rec.percentile.isSome ∨ rec.flood_status.isSome) ∧
    (∀ row : CurrentRow, ∀ sid, row.site_no = some sid →
      ((processRow ref flood trends temp_trends md now_iso row).isSome ↔
        (rowPercentileRaw ref md sid row).isSome ∨
        (rowFloodStatus flood sid row).isSome)) ∧
    (∀ row : CurrentRow, ∀ sid, row.site_no = some sid →
      refLookup ref sid md = none → buildFloodLookup flood sid = none →
      processRow ref flood trends temp_trends md now_iso row = none) ∧
    (∀ row : CurrentRow, ∀ sid s, row.site_no = some sid →
      rowPercentileRaw ref md sid row = none →
      rowFloodStatus flood sid row = some s →
      ∃ rec, processRow ref flood trends temp_trends md now_iso row = some rec ∧
        rec.percentile = none ∧ rec.flow_status = none ∧
        rec.drought_status = none ∧ rec.flood_status = some s) := by
  refine ⟨?_, ?_, ?_, ?_⟩
  · intro rec hrec
    obtain ⟨row, _, hpr⟩ := List.mem_filterMap.1 hrec
    unfold processRow at hpr
    rcases hs : row.site_no with _ | sid
    · rw [hs] at hpr; exact absurd hpr (by simp)
    · rw [hs] at hpr
      exact (emitFilter_some hpr).2
  · intro row sid hs
    obtain ⟨b1, _, _, b4⟩ := buildRecord_status_fields ref flood trends
      temp_trends md now_iso sid row
    simp only [processRow, hs, emitFilter]
    split_ifs with hc
    · simp only [Option.isSome_some, true_iff]
      rw [Bool.or_eq_true] at hc
      rcases hc with h | h
      · left
        rw [b1] at h
        simpa [Option.isSome_map] using h
      · right
        rw [b4] at h
        exact h
    · simp only [Option.isSome_none, Bool.false_eq_true, false_iff]
      rw [Bool.or_eq_true] at hc
      push_neg at hc
      intro hcon
      rcases hcon with h | h
      · exact absurd (by rw [b1]; simpa [Option.isSome_map] using h) hc.1
      · exact absurd (by rw [b4]; exact h) hc.2
  · intro row sid hs href hflood
    have hp : rowPercentileRaw ref md sid row = none := by
      unfold rowPercentileRaw
      rcases row.discharge with _ | flow
      · rfl
      · rw [href]
    have hf : rowFloodStatus flood sid row = none := by
      unfold rowFloodStatus
      rcases row.gage_height with _ | g
      · rfl
      · rw [hflood]
    obtain ⟨b1, _, _, b4⟩ := buildRecord_status_fields ref flood trends
      temp_trends md now_iso sid row
    have hcond : ¬ ((buildRecord ref flood trends temp_trends md now_iso
          sid row).percentile.isSome ||
        (buildRecord ref flood trends temp_trends md now_iso
          sid row).flood_status.isSome) = true := by
      rw [b1, b4, hp, hf]
      simp
    simp only [processRow, hs, emitFilter]
    rw [if_neg hcond]
  · intro row sid s hs hp hf
    obtain ⟨b1, b2, b3, b4⟩ := buildRecord_status_fields ref flood trends
      temp_trends md now_iso sid row
    rw [hp] at b1 b2 b3
    rw [hf] at b4
    refine ⟨buildRecord ref flood trends temp_trends md now_iso sid row,
      ?_, b1, b2, b3, b4⟩
    have hcond : ((buildRecord ref flood trends temp_trends md now_iso
          sid row).percentile.isSome ||
        (buildRecord ref flood trends temp_trends md now_iso
          sid row).flood_status.isSome) = true := by
      rw [b4]
      simp
    simp only [processRow, hs, emitFilter]
    rw [if_pos hcond]

theorem engine_emission_filter_witness :
    processRow [] (some [⟨"A", ⟨some 1, none, none, none⟩⟩]) none none
      "01-01" "ts" ⟨some "B", some 3, none, none⟩ = none ∧
    (∃ rec, processRow [] (some [⟨"A", ⟨some 1, none, none, none⟩⟩]) none none
        "01-01" "ts" ⟨some "A", none, some 5, none⟩ = some rec ∧
      rec.percentile = none ∧ rec.flow_status = none ∧
      rec.drought_status = none ∧ rec.flood_status = some "Action Stage") :=
  ⟨(engine_emission_filter [] (some [⟨"A", ⟨some 1, none, none, none⟩⟩])
      none none "01-01" "ts" []).2.2.1
      ⟨some "B", some 3, none, none⟩ "B" rfl rfl rfl,
   (engine_emission_filter [] (some [⟨"A", ⟨some 1, none, none, none⟩⟩])
      none none "01-01" "ts" []).2.2.2
      ⟨some "A", none, some 5, none⟩ "A" "Action Stage" rfl rfl rfl⟩

end FGP

